import Mathlib

/-!
Shallow embedding of the retrieval-augmentation workflow of the
course_maker_agent repository (files `vector_rag.py`,
`vector_store_manager.py`, `schemas.py`), together with theorems settling
the frozen claims about it.

External collaborators (the Google LLM chains, the Tavily search tool, the
Supabase client and its RPC) are modelled as explicit function parameters
gathered in environment records; every function of the repository that the
claims mention is translated line by line from the Python source.
-/

/- ------------------------------------------------------------------ -/
/- String constants of the source (kept as named definitions so that  -/
/- string literals never directly follow an applied name).            -/
/- ------------------------------------------------------------------ -/

def emptyStr : String := ""

/-- ASCII apostrophe (code point 39), used by the Python f-strings of
`construct_rich_query` (vector_rag.py lines 199-209). -/
def apos : String := String.singleton (Char.ofNat 39)

def space_str : String := " "

def double_newline : String := "\n\n"

/-- Error message of `construct_rich_query` (vector_rag.py line 196). -/
def core_query_error : String := "The core query cannot be empty."

/-- Separator searched for by `check_sufficiency_node`
(vector_rag.py line 250). -/
def think_tag : String := "</think>"

def true_str : String := "true"

/-- Route label returned by `decide_to_augment_or_answer`
(vector_rag.py line 306). -/
def end_route : String := "END"

/-- Route label returned by `decide_to_augment_or_answer`
(vector_rag.py line 309). -/
def plan_route : String := "plan_knowledge_augmentation"

/-- Stand-in message for the KeyError langgraph would raise if a
conditional edge returned an unmapped label (vector_rag.py lines 322-329);
provably unreachable here. -/
def routing_error : String := "unmapped conditional edge label"

/-- Python KeyError raised by the f-string print at vector_rag.py line
302, which subscripts the state before the defensive `.get` at line 303. -/
def key_error_is_sufficient : String := "KeyError: is_sufficient"

def content_key : String := "content"

def id_key : String := "id"

/-- Provenance tag written by `create_documents_from_search`
(vector_store_manager.py line 111). -/
def tavily_source : String := "tavily_search"

/- ------------------------------------------------------------------ -/
/- Python string primitives used by the source, embedded as total     -/
/- structurally recursive Lean functions so that concrete runs reduce -/
/- inside the kernel.                                                 -/
/- ------------------------------------------------------------------ -/

/-- Whitespace set of Python `str.strip` restricted to ASCII
(space, tab, newline, carriage return, vertical tab, form feed). -/
def py_is_space (c : Char) : Bool :=
  c = ' ' || c = '\t' || c = '\n' || c = '\r' ||
  c = Char.ofNat 11 || c = Char.ofNat 12

/-- Python `str.strip()`: drop leading and trailing whitespace. -/
def py_strip (s : String) : String :=
  String.mk (((s.data.dropWhile py_is_space).reverse.dropWhile py_is_space).reverse)

/-- Python `str.lower()` (ASCII letters; the source only compares against
the ASCII literal "true"). -/
def py_lower (s : String) : String :=
  String.mk (s.data.map Char.toLower)

/-- Does the pattern occur at the head of the character list? -/
def starts_with_chars : List Char → List Char → Bool
  | [], _ => true
  | _ :: _, [] => false
  | p :: ps, c :: cs => p = c && starts_with_chars ps cs

/-- Worker for `py_split`; the fuel argument (instantiated with the input
length plus one) makes the recursion structural. -/
def py_split_go (sep : List Char) : Nat → List Char → List Char → List (List Char)
  | _, [], acc => [acc.reverse]
  | 0, rest, acc => [acc.reverse ++ rest]
  | Nat.succ fuel, c :: rest, acc =>
    if starts_with_chars sep (c :: rest) then
      acc.reverse :: py_split_go sep fuel ((c :: rest).drop sep.length) []
    else
      py_split_go sep fuel rest (c :: acc)

/-- Python `s.split(sep)` for a non-empty separator: split on every
non-overlapping occurrence from the left; always returns at least one
part, and more than one part exactly when the separator occurs. -/
def py_split (sep : String) (s : String) : List String :=
  (py_split_go sep.data (s.data.length + 1) s.data []).map String.mk

/- ------------------------------------------------------------------ -/
/- Data model (vector_rag.py / langchain documents).                  -/
/- ------------------------------------------------------------------ -/

/-- A value stored in a langchain `Document.metadata` mapping; the source
puts the row id (an int or None) and string-valued metadata entries there
(vector_store_manager.py lines 163-166). -/
inductive MetaVal where
  | mvStr (s : String)
  | mvNat (n : Nat)
  | mvNone
  deriving DecidableEq, Repr

/-- langchain `Document` as used by this repository: `page_content` plus a
metadata mapping, modelled as an association list in insertion order. -/
structure Document where
  page_content : String
  metadata : List (String × MetaVal)
  deriving DecidableEq, Repr

/-- Pydantic `SearchQueries` (vector_rag.py lines 49-50). -/
structure SearchQueries where
  queries : List String
  deriving DecidableEq, Repr

/-- Runtime value found under the `is_sufficient` key of the graph state:
the nodes write a bool, but `decide_to_augment_or_answer` defensively also
handles a string value (vector_rag.py line 304). -/
inductive SuffVal where
  | ofBool (b : Bool)
  | ofStr (s : String)
  deriving DecidableEq, Repr

/-- The graph state `State` (vector_rag.py lines 59-66); `is_sufficient`
is an `Option` so that a state in which the key was never written is
representable (the router then raises KeyError at line 302). -/
structure State where
  query : String
  goal : String
  desired_focus : String
  target_audience : String
  search_queries : SearchQueries
  is_sufficient : Option SuffVal
  documents : List Document

/- ------------------------------------------------------------------ -/
/- Environment: the external effects reached from the graph nodes.    -/
/- `σ` is the (opaque) state of the backing Supabase store, threaded   -/
/- through ingestion; `create_documents` returns the inserted ids the  -/
/- way `create_documents_from_search` does.                            -/
/- ------------------------------------------------------------------ -/

structure Env (σ : Type) where
  hybrid_search : σ → String → Nat → List Document
  create_documents : σ → String → σ × List Nat
  sufficiency_chain : String → String → String → String
  knowledge_gap_chain : String → String → String → SearchQueries

/- ------------------------------------------------------------------ -/
/- vector_rag.py functions.                                           -/
/- ------------------------------------------------------------------ -/

/-- The parts list built by `construct_rich_query`
(vector_rag.py lines 198-209); a falsy (empty) optional argument is
skipped. -/
def rich_parts (query goal desired_focus target_audience : String) : List String :=
  let parts := ["The user is searching for information about: " ++ apos ++ query ++ apos ++ "."]
  let parts := if goal = emptyStr then parts
    else parts ++ ["The main goal is to " ++ goal ++ "."]
  let parts := if desired_focus = emptyStr then parts
    else parts ++ ["The search results should have a strong " ++ apos ++ desired_focus ++ apos ++ " focus."]
  if target_audience = emptyStr then parts
  else parts ++ ["The content is intended for a " ++ apos ++ target_audience ++ apos ++ " audience."]

/-- `construct_rich_query` (vector_rag.py lines 177-215); raising
ValueError on an empty core query is modelled as `Except.error`. -/
def construct_rich_query (query goal desired_focus target_audience : String) :
    Except String String :=
  if query = emptyStr then Except.error core_query_error
  else Except.ok (String.intercalate space_str (rich_parts query goal desired_focus target_audience))

/-- `initial_retrieve_node` (vector_rag.py lines 217-231): build the rich
query and fetch k = 25 documents from the hybrid search; the ValueError of
`construct_rich_query` propagates. -/
def initial_retrieve_node (σ : Type) (env : Env σ) (store : σ) (st : State) :
    Except String State :=
  match construct_rich_query st.query st.goal st.desired_focus st.target_audience with
  | Except.error e => Except.error e
  | Except.ok rich_query =>
    Except.ok { st with documents := env.hybrid_search store rich_query 25 }

/-- The verdict-parsing logic of `check_sufficiency_node`
(vector_rag.py lines 247-259): default False; True when the part after a
final think tag, stripped and lowered, is "true", or when the whole
stripped and lowered response is "true". -/
def parse_sufficiency (response : String) : Bool :=
  let parts := py_split think_tag response
  let from_think :=
    decide (parts.length > 1) && decide (py_lower (py_strip (parts.getLastD emptyStr)) = true_str)
  let from_whole := decide (py_lower (py_strip response) = true_str)
  from_think || from_whole

/-- Concatenated page contents, as built by the nodes
(vector_rag.py lines 243, 269). -/
def context_of (documents : List Document) : String :=
  String.intercalate double_newline (documents.map (fun doc => doc.page_content))

/-- `check_sufficiency_node` (vector_rag.py lines 233-262): with no
documents the state is deemed insufficient without an LLM call; otherwise
the sufficiency chain is invoked and its free-text answer parsed, any
unparseable answer falling back to the default False. -/
def check_sufficiency_node (σ : Type) (env : Env σ) (st : State) : State :=
  if st.documents = [] then
    { st with is_sufficient := some (SuffVal.ofBool false) }
  else
    let context_str := context_of st.documents
    let response := env.sufficiency_chain st.query st.desired_focus context_str
    { st with is_sufficient := some (SuffVal.ofBool (parse_sufficiency response)) }

/-- `knowledge_planner_node` (vector_rag.py lines 264-274): ask the
knowledge-gap chain for new search queries. -/
def knowledge_planner_node (σ : Type) (env : Env σ) (st : State) : State :=
  let context_str := context_of st.documents
  { st with search_queries := env.knowledge_gap_chain st.query st.desired_focus context_str }

/-- The sequential for-loop over the planned queries
(vector_rag.py lines 287-289): each `create_documents_from_search` call
mutates the backing store; its returned id list is discarded. -/

def ingest_fold (σ : Type) (env : Env σ) (store : σ) (queries : List String) : σ :=
  queries.foldl (fun s search_query => (env.create_documents s search_query).1) store

/-- `gather_and_process_node` (vector_rag.py lines 276-297): with no
planned queries, skip gathering and keep the documents; otherwise run the
ingestion loop and then replace the documents with a fresh hybrid search
for the original `query` with k = 20. -/
def gather_and_process_node (σ : Type) (env : Env σ) (store : σ) (st : State) :
    σ × State :=
  if st.search_queries.queries = [] then
    (store, { st with documents := st.documents })
  else
    let store2 := ingest_fold σ env store st.search_queries.queries
    let final_documents := env.hybrid_search store2 st.query 20
    (store2, { st with documents := final_documents })

/-- `decide_to_augment_or_answer` (vector_rag.py lines 301-309): the
print at line 302 subscripts state["is_sufficient"] and so raises
KeyError when the key is missing, before the defensive `.get` at line
303 is reached; with the key present, route to END when the value is the
bool True or a string lowering to "true", and to planning for everything
else (False, other strings). -/
def decide_to_augment_or_answer (sufficient_value : Option SuffVal) :
    Except String String :=
  match sufficient_value with
  | none => Except.error key_error_is_sufficient
  | some (SuffVal.ofBool true) => Except.ok end_route
  | some (SuffVal.ofStr s) =>
    if py_lower s = true_str then Except.ok end_route else Except.ok plan_route
  | some (SuffVal.ofBool false) => Except.ok plan_route

/- ------------------------------------------------------------------ -/
/- The compiled graph (vector_rag.py lines 311-333).                  -/
/- ------------------------------------------------------------------ -/

/-- The nodes of the workflow; `terminal` is the langgraph END. -/
inductive Node where
  | initial_retriever
  | check_sufficiency
  | plan_knowledge_augmentation
  | gather_and_process
  | terminal
  deriving DecidableEq, Repr

/-- The conditional-edge mapping of `add_conditional_edges`
(vector_rag.py lines 322-329). -/
def route_target (label : String) : Option Node :=
  if label = end_route then some Node.terminal
  else if label = plan_route then some Node.plan_knowledge_augmentation
  else none

/-- One node execution of the compiled graph: run the node body, merge its
returned update (the node functions above already return the merged
state), and follow the outgoing edge declared in the workflow
(vector_rag.py lines 318-332). `terminal` is absorbing. -/
def step (σ : Type) (env : Env σ) :
    Node → σ → State → Except String (Node × σ × State)
  | Node.initial_retriever, store, st =>
    match initial_retrieve_node σ env store st with
    | Except.error e => Except.error e
    | Except.ok st2 => Except.ok (Node.check_sufficiency, store, st2)
  | Node.check_sufficiency, store, st =>
    let st2 := check_sufficiency_node σ env st
    match decide_to_augment_or_answer st2.is_sufficient with
    | Except.error e => Except.error e
    | Except.ok label =>
      match route_target label with
      | some n2 => Except.ok (n2, store, st2)
      | none => Except.error routing_error
  | Node.plan_knowledge_augmentation, store, st =>
    Except.ok (Node.gather_and_process, store, knowledge_planner_node σ env st)
  | Node.gather_and_process, store, st =>
    let out := gather_and_process_node σ env store st
    Except.ok (Node.terminal, out.1, out.2)
  | Node.terminal, store, st => Except.ok (Node.terminal, store, st)

/-- Iterated node execution (at most `fuel` node executions). -/
def steps (σ : Type) (env : Env σ) :
    Nat → Node → σ → State → Except String (Node × σ × State)
  | 0, n, store, st => Except.ok (n, store, st)
  | fuel + 1, n, store, st =>
    match step σ env n store st with
    | Except.error e => Except.error e
    | Except.ok out => steps σ env fuel out.1 out.2.1 out.2.2

/-- `graph.invoke` from the entry point `initial_retriever`
(vector_rag.py lines 319, 333): four node executions always reach END, as
proved below. -/
def graph_invoke (σ : Type) (env : Env σ) (store : σ) (st : State) :
    Except String (Node × σ × State) :=
  steps σ env 4 Node.initial_retriever store st

/- ------------------------------------------------------------------ -/
/- vector_store_manager.py : SupabaseVectorManager.perform_hybrid_search -/
/- ------------------------------------------------------------------ -/

/-- The metadata column value of a row returned by the ranking RPC:
absent, a JSON object (string-valued entries are all the source ever
spreads), or some non-dict value (vector_store_manager.py line 165). -/
inductive RowMetaVal where
  | absent
  | dict (d : List (String × String))
  | nondict
  deriving DecidableEq, Repr

/-- A raw dictionary row returned by the `hybrid_search` RPC
(vector_store_manager.py lines 158-169); `id` and `content` are accessed
with `.get` and so may be missing. -/
structure Row where
  id : Option Nat
  content : Option String
  metadata : RowMetaVal
  deriving DecidableEq, Repr

/-- The parameter dictionary built for the RPC call
(vector_store_manager.py lines 148-152). -/
structure RpcParams (V : Type) where
  query_text : String
  query_embedding : V
  match_count : Nat

/-- External collaborators of `perform_hybrid_search`: the embedding
service and the server-side ranking function; `rpc` is `Except.error`
when `.execute()` raises, and `Except.ok` with the response data rows
otherwise (an empty or null data payload is the empty list). -/
structure HybridEnv (V : Type) where
  embed_query : String → V
  rpc : RpcParams V → Except String (List Row)

/-- The `rpc_params` dictionary (vector_store_manager.py lines 145-152):
the single argument `q` is embedded for the semantic side and passed
verbatim as the lexical `query_text`. -/
def rpc_params_of (V : Type) (env : HybridEnv V) (q : String) (k : Nat) : RpcParams V :=
  { query_text := q, query_embedding := env.embed_query q, match_count := k }

/-- Conversion of a raw row into a langchain Document
(vector_store_manager.py lines 160-168): missing content becomes the
empty string, and the metadata mapping holds the id entry followed by the
spread of the row metadata when it is a dict (in the Python dict-merge
semantics a duplicate key in the spread would win; no claim depends on
that corner). -/
def row_to_document (row : Row) : Document :=
  { page_content := row.content.getD emptyStr
  , metadata :=
      (id_key, match row.id with
        | some n => MetaVal.mvNat n
        | none => MetaVal.mvNone) ::
      (match row.metadata with
        | RowMetaVal.dict d => d.map (fun p => (p.1, MetaVal.mvStr p.2))
        | _ => []) }

/-- `SupabaseVectorManager.perform_hybrid_search`
(vector_store_manager.py lines 137-174): embed the query, call the
ranking RPC with the parameter dictionary, map non-empty response data to
Documents, return the empty list on empty data, and let a raised
`.execute()` failure propagate (there is no try/except around it). -/
def perform_hybrid_search (V : Type) (env : HybridEnv V) (q : String) (k : Nat) :
    Except String (List Document) :=
  match env.rpc (rpc_params_of V env q k) with
  | Except.error e => Except.error e
  | Except.ok data =>
    if data = [] then Except.ok []
    else Except.ok (data.map row_to_document)

/-- Modelled from the spec: the interface
`hybridSearch(primaryQuery, auxiliaryKeywordQuery, k)` of section 4.1,
which embeds the primary query into a vector and, in combination with the
auxiliary keyword query for lexical matching, invokes the single
server-side ranking function. The repository has no such two-query
operation; this definition exists only to be compared with
`perform_hybrid_search`, whose lexical text is forced to equal its one
query argument. -/
def hybridSearch_spec (V : Type) (env : HybridEnv V)
    (primaryQuery auxiliaryKeywordQuery : String) (k : Nat) :
    Except String (List Document) :=
  match env.rpc { query_text := auxiliaryKeywordQuery
                , query_embedding := env.embed_query primaryQuery
                , match_count := k } with
  | Except.error e => Except.error e
  | Except.ok data =>
    if data = [] then Except.ok []
    else Except.ok (data.map row_to_document)

/- ------------------------------------------------------------------ -/
/- vector_store_manager.py : create_documents_from_search.            -/
/- ------------------------------------------------------------------ -/

/-- A result of the Tavily search tool (title, url, content accessed with
`.get`, so each may be missing). -/
structure SearchResult where
  title : Option String
  url : Option String
  content : Option String
  deriving DecidableEq, Repr

/-- Pydantic `DocumentMetadata` (vector_store_manager.py lines 23-29):
every field is required, so a `model_dump` of an instance always carries
all of them. -/
structure DocumentMetadata where
  title : String
  url : String
  content : String
  mentions : List String
  related_to : List String
  deriving DecidableEq, Repr

/-- The nested metadata dictionary of an upserted row
(vector_store_manager.py lines 108-116). -/
structure RowMetadata where
  title : String
  url : String
  source : String
  mentions : List String
  related_to : List String
  deriving DecidableEq, Repr

/-- One row of `rows_to_insert` (vector_store_manager.py lines 105-117). -/
structure InsertRow (V : Type) where
  content : String
  embedding : V
  metadata : RowMetadata

/-- One element of the upsert response data, from which ids are read
(vector_store_manager.py line 130). -/
structure InsertedItem where
  id : Nat
  deriving DecidableEq, Repr

/-- External collaborators of `create_documents_from_search`: the search
tool, the deterministic text splitter, the metadata-generation LLM call
and the embedding call (both inside the per-chunk try block, `none`
modelling a raised exception there), and the upsert
(`Except.error` when `.execute()` raises, `Except.ok` with the response
data otherwise). -/
structure IngestEnv (V : Type) where
  search_tool : String → List SearchResult
  split_text : String → List String
  generate_metadata : String → Option DocumentMetadata
  embed_query : String → Option V
  upsert : List (InsertRow V) → Except String (List InsertedItem)

/-- Python truthiness of `result.get("content")`
(vector_store_manager.py line 94): present and non-empty. -/
def content_truthy (result : SearchResult) : Bool :=
  match result.content with
  | none => false
  | some s => if s = emptyStr then false else true

/-- The body of the per-chunk try block
(vector_store_manager.py lines 99-118): generate metadata, embed the
refined content, and build the row; `none` means the exception was caught
at line 119 and the chunk skipped with a warning. The dict-get fallbacks
to the search-result title and url at lines 109-110 are unreachable
because `DocumentMetadata` declares both fields required. -/
def process_chunk (V : Type) (env : IngestEnv V) (chunk : String) :
    Option (InsertRow V) :=
  match env.generate_metadata chunk with
  | none => none
  | some llm_metadata =>
    match env.embed_query llm_metadata.content with
    | none => none
    | some embedding =>
      some { content := llm_metadata.content
           , embedding := embedding
           , metadata :=
             { title := llm_metadata.title
             , url := llm_metadata.url
             , source := tavily_source
             , mentions := llm_metadata.mentions
             , related_to := llm_metadata.related_to } }

/-- The chunks the nested loops at lines 93-98 iterate over: for each
search result with truthy content, the chunks the splitter makes of that content,
in order. -/
def eligible_chunks (V : Type) (env : IngestEnv V) (results : List SearchResult) :
    List String :=
  (results.filter content_truthy).flatMap
    (fun result => env.split_text (result.content.getD emptyStr))

/-- `rows_to_insert` accumulated by the loops
(vector_store_manager.py lines 92-120): failed chunks are skipped, the
rest are kept in order. -/
def rows_to_insert (V : Type) (env : IngestEnv V) (results : List SearchResult) :
    List (InsertRow V) :=
  (eligible_chunks V env results).filterMap (process_chunk V env)

/-- `SupabaseVectorManager.create_documents_from_search`
(vector_store_manager.py lines 84-135): empty search results return the
empty id list at once; no processable chunk returns the empty id list;
otherwise the rows are upserted and the response-data ids returned, with
an empty-data response mapped to the empty list and a raised upsert
failure propagating. -/
def create_documents_from_search (V : Type) (env : IngestEnv V) (topic : String) :
    Except String (List Nat) :=
  let search_results := env.search_tool topic
  if search_results = [] then Except.ok []
  else
    let rows := rows_to_insert V env search_results
    if rows.isEmpty then Except.ok []
    else
      match env.upsert rows with
      | Except.error e => Except.error e
      | Except.ok response_data =>
        if response_data = [] then Except.ok []
        else Except.ok (response_data.map (fun item => item.id))

/- ------------------------------------------------------------------ -/
/- schemas.py / vector_rag.py : Documents.parse_metadata.             -/
/- ------------------------------------------------------------------ -/

/-- A parsed JSON value, the possible outputs of `json.loads`. -/
inductive JsonVal where
  | str (s : String)
  | num (n : Int)
  | boolean (b : Bool)
  | null
  | arr (elems : List JsonVal)
  | obj (entries : List (String × JsonVal))

/-- Input to the `parse_metadata` validator: a Python string or any
non-string value (of an arbitrary type α). -/
inductive MetaField (α : Type) where
  | ofStr (s : String)
  | ofNonStr (v : α)

/-- `Documents.parse_metadata` (vector_rag.py lines 40-47, schemas.py
lines 98-105), a pre-validator: a string input is parsed with
`json.loads` (modelled by the `loads` parameter, `none` standing for a
raised JSONDecodeError); on parse failure the raw string is wrapped as
the object with one "content" entry; a non-string input passes through
unchanged. The function is total: the decode error never escapes. -/
def parse_metadata (α : Type) (loads : String → Option JsonVal) :
    MetaField α → JsonVal ⊕ α
  | MetaField.ofStr s =>
    match loads s with
    | some parsed => Sum.inl parsed
    | none => Sum.inl (JsonVal.obj [(content_key, JsonVal.str s)])
  | MetaField.ofNonStr v => Sum.inr v

/- ------------------------------------------------------------------ -/
/- Concrete instantiations used by witnesses and counterexamples.     -/
/- ------------------------------------------------------------------ -/

def q_str : String := "make a course of pydantic ai"

def gap_q : String := "pydantic ai tutorials"

def false_str : String := "false"

def maybe_str : String := "maybe"

def boom_str : String := "connection reset"

def pydantic_str : String := "pydantic"

def lex_str : String := "lexical match"

def sem_str : String := "semantic match"

def topic_c7 : String := "pydantic ai"

def content_c7 : String := "chunk source text"

def chunk_a : String := "alpha"

def chunk_b : String := "beta"

def chunk_c : String := "gamma"

def chunk_d : String := "delta"

def chunk_e : String := "epsilon"

def title_c7 : String := "chunk title"

def url_c7 : String := "chunk url"

def doc_a : Document := { page_content := "alpha doc", metadata := [] }

def doc_b : Document := { page_content := "beta doc", metadata := [] }

/-- Initial state of a run, mirroring the `graph.invoke` input of the
main block (vector_rag.py lines 335-342) with the optional context fields
left empty and the keys the caller does not supply at their defaults. -/
def st_main : State :=
  { query := q_str
  , goal := emptyStr
  , desired_focus := emptyStr
  , target_audience := emptyStr
  , search_queries := SearchQueries.mk []
  , is_sufficient := none
  , documents := [] }

/-- State sitting at the sufficiency check with one retrieved document. -/
def st_check : State := { st_main with documents := [doc_a] }

/-- State sitting at the gather node with one planned query. -/
def st_gather : State := { st_main with search_queries := SearchQueries.mk [gap_q] }

/-- Adversarial collaborators: retrieval always empty, the sufficiency
verdict always the parseable "false", the gap planner always non-empty. -/
def env1 : Env Unit :=
  { hybrid_search := fun _ _ _ => []
  , create_documents := fun _ _ => ((), [])
  , sufficiency_chain := fun _ _ _ => false_str
  , knowledge_gap_chain := fun _ _ _ => SearchQueries.mk [gap_q] }

/-- Collaborators whose sufficiency answer "maybe" is unparseable. -/
def env2 : Env Unit :=
  { hybrid_search := fun _ _ _ => [doc_a]
  , create_documents := fun _ _ => ((), [])
  , sufficiency_chain := fun _ _ _ => maybe_str
  , knowledge_gap_chain := fun _ _ _ => SearchQueries.mk [gap_q] }

/-- Collaborators for which the initial k = 25 retrieval finds two
documents but the post-augmentation k = 20 retrieval finds none; the
store state counts the ingestion calls. -/
def env3 : Env Nat :=
  { hybrid_search := fun _ _ k => if k = 25 then [doc_a, doc_b] else []
  , create_documents := fun s _ => (s + 1, [])
  , sufficiency_chain := fun _ _ _ => false_str
  , knowledge_gap_chain := fun _ _ _ => SearchQueries.mk [gap_q] }

/-- Ranking backend that reports no matches. -/
def hybrid_env_ok : HybridEnv Unit :=
  { embed_query := fun _ => (), rpc := fun _ => Except.ok [] }

/-- Ranking backend whose call itself fails. -/
def hybrid_env_err : HybridEnv Unit :=
  { embed_query := fun _ => (), rpc := fun _ => Except.error boom_str }

def row_lex : Row := { id := some 1, content := some lex_str, metadata := RowMetaVal.absent }

def row_sem : Row := { id := some 2, content := some sem_str, metadata := RowMetaVal.absent }

/-- Ranking backend that observes both sides of the call: with empty
lexical text it ranks purely by the embedding (the semantic match for the
embedded "pydantic", nothing otherwise), and with non-empty lexical text
it returns the lexical match. -/
def hybrid_env9 : HybridEnv String :=
  { embed_query := fun s => s
  , rpc := fun p =>
      if p.query_text = emptyStr then
        (if p.query_embedding = pydantic_str then Except.ok [row_sem] else Except.ok [])
      else Except.ok [row_lex] }

/-- Search provider returning zero results. -/
def ingest_env_empty : IngestEnv Unit :=
  { search_tool := fun _ => []
  , split_text := fun _ => []
  , generate_metadata := fun _ => none
  , embed_query := fun _ => none
  , upsert := fun _ => Except.ok [] }

def chunks_c7 : List String := [chunk_a, chunk_b, chunk_c, chunk_d, chunk_e]

def items_w : List InsertedItem := [InsertedItem.mk 7, InsertedItem.mk 8, InsertedItem.mk 9, InsertedItem.mk 10]

def result_ids : List Nat := [7, 8, 9, 10]

/-- Ingestion collaborators for the partial-failure scenario: one search
result whose content splits into five chunks, the refinement call raising
for exactly the second chunk, and an upsert acknowledging one row per
inserted chunk. -/
def ingest_env_w : IngestEnv Unit :=
  { search_tool := fun _ => [{ title := some title_c7, url := some url_c7, content := some content_c7 }]
  , split_text := fun s => if s = content_c7 then chunks_c7 else []
  , generate_metadata := fun chunk =>
      if chunk = chunk_b then none
      else some { title := title_c7, url := url_c7, content := chunk, mentions := [], related_to := [] }
  , embed_query := fun _ => some ()
  , upsert := fun _ => Except.ok items_w }

/-- Number of chunks whose refinement step succeeds. -/
def refine_success_count (V : Type) (env : IngestEnv V) (chunks : List String) : Nat :=
  chunks.countP (fun chunk => (process_chunk V env chunk).isSome)

/-- The `json.loads` stand-in that always raises JSONDecodeError. -/
def loads_none : String → Option JsonVal := fun _ => none

def oops_str : String := "not json"

/- ------------------------------------------------------------------ -/
/- Named state observations and transformers (used to keep theorem    -/
/- statements readable).                                              -/
/- ------------------------------------------------------------------ -/

def run_node (σ : Type) (out : Node × σ × State) : Node := out.1

def run_suff (σ : Type) (out : Node × σ × State) : Option SuffVal := out.2.2.is_sufficient

def run_docs_count (σ : Type) (out : Node × σ × State) : Nat := out.2.2.documents.length

/-- The rich query `initial_retrieve_node` searches with, given a
non-empty core query. -/
def rich_query_of (st : State) : String :=
  String.intercalate space_str (rich_parts st.query st.goal st.desired_focus st.target_audience)

/-- The state after a successful `initial_retrieve_node`. -/
def after_initial (σ : Type) (env : Env σ) (store : σ) (st : State) : State :=
  { st with documents := env.hybrid_search store (rich_query_of st) 25 }

/-- The state after `check_sufficiency_node` produced the verdict `b`. -/
def after_verdict (st : State) (b : Bool) : State :=
  { st with is_sufficient := some (SuffVal.ofBool b) }

/- ------------------------------------------------------------------ -/
/- Helper lemmas.                                                     -/
/- ------------------------------------------------------------------ -/

theorem steps_succ_of_ok (σ : Type) (env : Env σ) (fuel : Nat) (n n2 : Node)
    (store store2 : σ) (st st2 : State)
    (h : step σ env n store st = Except.ok (n2, store2, st2)) :
    steps σ env (fuel + 1) n store st = steps σ env fuel n2 store2 st2 := by
  simp [steps, h]

theorem steps_terminal (σ : Type) (env : Env σ) (fuel : Nat) (store : σ) (st : State) :
    steps σ env fuel Node.terminal store st = Except.ok (Node.terminal, store, st) := by
  induction fuel with
  | zero => rfl
  | succ k ih => simp [steps, step, ih]

theorem decide_bool_true_eq :
    decide_to_augment_or_answer (some (SuffVal.ofBool true)) = Except.ok end_route := rfl

theorem decide_bool_false_eq :
    decide_to_augment_or_answer (some (SuffVal.ofBool false)) = Except.ok plan_route := rfl

theorem decide_none_eq :
    decide_to_augment_or_answer none = Except.error key_error_is_sufficient := rfl

theorem route_target_end : route_target end_route = some Node.terminal := by
  unfold route_target
  rw [if_pos rfl]

theorem plan_ne_end : plan_route ≠ end_route := by decide

theorem route_target_plan :
    route_target plan_route = some Node.plan_knowledge_augmentation := by
  unfold route_target
  rw [if_neg plan_ne_end, if_pos rfl]

theorem after_verdict_is_sufficient (st : State) (b : Bool) :
    (after_verdict st b).is_sufficient = some (SuffVal.ofBool b) := rfl

/-- Whatever the sufficiency LLM answers, `check_sufficiency_node` always
writes a boolean verdict (never an error) into the state and changes
nothing else. -/
theorem check_sufficiency_node_shape (σ : Type) (env : Env σ) (st : State) :
    ∃ b : Bool, check_sufficiency_node σ env st = after_verdict st b := by
  unfold check_sufficiency_node after_verdict
  by_cases h : st.documents = []
  · exact ⟨false, by simp [h]⟩
  · exact ⟨parse_sufficiency
      (env.sufficiency_chain st.query st.desired_focus (context_of st.documents)),
      by simp [h]⟩

/-- From the sufficiency check, three further node executions always
reach END, whichever verdict is produced. -/
theorem steps_from_check (σ : Type) (env : Env σ) (store : σ) (st : State) :
    ∃ out : Node × σ × State,
      steps σ env 3 Node.check_sufficiency store st = Except.ok out ∧
      out.1 = Node.terminal := by
  obtain ⟨b, hb⟩ := check_sufficiency_node_shape σ env st
  cases b with
  | true =>
    have hstep : step σ env Node.check_sufficiency store st =
        Except.ok (Node.terminal, store, after_verdict st true) := by
      simp [step, hb, after_verdict_is_sufficient, decide_bool_true_eq, route_target_end]
    refine ⟨(Node.terminal, store, after_verdict st true), ?_, rfl⟩
    calc steps σ env 3 Node.check_sufficiency store st
        = steps σ env 2 Node.terminal store (after_verdict st true) :=
          steps_succ_of_ok σ env 2 _ _ _ _ _ _ hstep
      _ = Except.ok (Node.terminal, store, after_verdict st true) :=
          steps_terminal σ env 2 store (after_verdict st true)
  | false =>
    have hstep : step σ env Node.check_sufficiency store st =
        Except.ok (Node.plan_knowledge_augmentation, store, after_verdict st false) := by
      simp [step, hb, after_verdict_is_sufficient, decide_bool_false_eq, route_target_plan]
    refine ⟨(Node.terminal, (gather_and_process_node σ env store (knowledge_planner_node σ env (after_verdict st false))).1, (gather_and_process_node σ env store (knowledge_planner_node σ env (after_verdict st false))).2), ?_, rfl⟩
    calc steps σ env 3 Node.check_sufficiency store st
        = steps σ env 2 Node.plan_knowledge_augmentation store (after_verdict st false) :=
          steps_succ_of_ok σ env 2 _ _ _ _ _ _ hstep
      _ = steps σ env 1 Node.gather_and_process store (knowledge_planner_node σ env (after_verdict st false)) :=
          steps_succ_of_ok σ env 1 _ _ _ _ _ _ rfl
      _ = steps σ env 0 Node.terminal (gather_and_process_node σ env store (knowledge_planner_node σ env (after_verdict st false))).1 (gather_and_process_node σ env store (knowledge_planner_node σ env (after_verdict st false))).2 :=
          steps_succ_of_ok σ env 0 _ _ _ _ _ _ rfl
      _ = Except.ok (Node.terminal, (gather_and_process_node σ env store (knowledge_planner_node σ env (after_verdict st false))).1, (gather_and_process_node σ env store (knowledge_planner_node σ env (after_verdict st false))).2) := rfl

/- ------------------------------------------------------------------ -/
/- Claim theorems.                                                    -/
/- ------------------------------------------------------------------ -/

/-- C1. For every environment (in particular one whose sufficiency
verdict is always false and whose gap planner always returns non-empty
query lists) and every input state with a non-empty query, a run of the
compiled workflow from the `initial_retriever` entry point reaches END
within four node executions: the graph has no back-edge, so termination
is bounded structurally. -/
theorem claim_c1_bounded_termination (σ : Type) (env : Env σ) (store : σ) (st : State)
    (h : st.query ≠ emptyStr) :
    ∃ out : Node × σ × State,
      graph_invoke σ env store st = Except.ok out ∧ out.1 = Node.terminal := by
  have hinit : step σ env Node.initial_retriever store st =
      Except.ok (Node.check_sufficiency, store, after_initial σ env store st) := by
    simp [step, initial_retrieve_node, construct_rich_query, h, after_initial, rich_query_of]
  obtain ⟨out, hsteps, hterm⟩ := steps_from_check σ env store (after_initial σ env store st)
  refine ⟨out, ?_, hterm⟩
  calc graph_invoke σ env store st
      = steps σ env 3 Node.check_sufficiency store (after_initial σ env store st) :=
        steps_succ_of_ok σ env 3 _ _ _ _ _ _ hinit
    _ = Except.ok out := hsteps

/-- C1 witness: the main-block input, run against adversarial
collaborators (sufficiency always the parseable "false", gap planner
always non-empty), reaches END. -/
theorem claim_c1_witness :
    st_main.query ≠ emptyStr ∧
    ∃ out : Node × Unit × State,
      graph_invoke Unit env1 () st_main = Except.ok out ∧ out.1 = Node.terminal :=
  ⟨by decide, claim_c1_bounded_termination Unit env1 () st_main (by decide)⟩

/-- C2 counterexample: with a sufficiency answer "maybe" that cannot be
parsed into a verdict, the run does not terminate with a planning error:
after the check the node is the gap planner, the stored verdict is the
guessed default False, and the whole run still completes normally. -/
theorem claim_c2_counterexample :
    (steps Unit env2 2 Node.initial_retriever () st_main).map (run_node Unit) =
      Except.ok Node.plan_knowledge_augmentation ∧
    (steps Unit env2 2 Node.initial_retriever () st_main).map (run_suff Unit) =
      Except.ok (some (SuffVal.ofBool false)) ∧
    (graph_invoke Unit env2 () st_main).map (run_node Unit) = Except.ok Node.terminal := by
  refine ⟨rfl, rfl, rfl⟩

/-- C2 amended: when the sufficiency-check output does not parse as a
verdict, the run does not terminate with a planning error;
`check_sufficiency_node` substitutes the default verdict False and the
router proceeds to gap planning. A sufficiency signal missing from the
state altogether is different: the router raises KeyError (from the
logging subscript at line 302, not an intentional planning error), a
case the compiled graph never reaches because the check node always
writes a boolean verdict first. -/
theorem claim_c2_amended (σ : Type) (env : Env σ) (store : σ) (st : State)
    (h1 : st.documents ≠ [])
    (h2 : parse_sufficiency
      (env.sufficiency_chain st.query st.desired_focus (context_of st.documents)) = false) :
    step σ env Node.check_sufficiency store st =
      Except.ok (Node.plan_knowledge_augmentation, store, after_verdict st false) ∧
    decide_to_augment_or_answer none = Except.error key_error_is_sufficient := by
  constructor
  · have hb : check_sufficiency_node σ env st = after_verdict st false := by
      unfold check_sufficiency_node after_verdict
      simp [h1, h2]
    simp [step, hb, after_verdict_is_sufficient, decide_bool_false_eq, route_target_plan]
  · rfl

/-- C2 amended witness: one retrieved document and the unparseable answer
"maybe" route the run to the gap planner with the default False verdict. -/
theorem claim_c2_amended_witness :
    step Unit env2 Node.check_sufficiency () st_check =
      Except.ok (Node.plan_knowledge_augmentation, (), after_verdict st_check false) ∧
    decide_to_augment_or_answer none = Except.error key_error_is_sufficient :=
  claim_c2_amended Unit env2 () st_check (by decide) (by decide)

/-- C3 counterexample: against collaborators for which the initial
k = 25 retrieval returns two documents and the post-augmentation k = 20
retrieval returns none, the document count after the augmentation
iteration (0) is strictly below the count after the initial iteration
(2): accumulation is not monotonic. -/
theorem claim_c3_counterexample :
    (steps Nat env3 2 Node.initial_retriever 0 st_main).map (run_docs_count Nat) =
      Except.ok 2 ∧
    (graph_invoke Nat env3 0 st_main).map (run_docs_count Nat) = Except.ok 0 ∧
    (0 : Nat) < 2 := by
  refine ⟨rfl, rfl, by decide⟩

/-- C3 amended: the document set is not accumulated monotonically; an
augmentation round with a non-empty planned query list replaces the
document list with the results of a fresh hybrid search (k = 20) for the
query of the run — the replacement is independent of whatever documents were
previously held (so the count may decrease); only when the planner
returns no queries is the previous document list kept. -/
theorem claim_c3_amended (σ : Type) (env : Env σ) (store : σ) (st : State)
    (docs2 : List Document) (h : st.search_queries.queries ≠ []) :
    (gather_and_process_node σ env store st).2.documents =
      (gather_and_process_node σ env store { st with documents := docs2 }).2.documents := by
  simp [gather_and_process_node, h]

/-- C3 amended witness: the gather node computes the same replacement
document list whether the state previously held no documents or one. -/
theorem claim_c3_amended_witness :
    (gather_and_process_node Nat env3 0 st_gather).2.documents =
      (gather_and_process_node Nat env3 0 { st_gather with documents := [doc_a] }).2.documents :=
  claim_c3_amended Nat env3 0 st_gather [doc_a] (by decide)

/-- C5. When the planned query list is empty, the gather node makes no
ingestion call (the store is returned untouched for every possible
environment), keeps the existing document set as final, and the run moves
to END with no further augmentation round. -/
theorem claim_c5_empty_gap_terminates (σ : Type) (env : Env σ) (store : σ) (st : State)
    (h : st.search_queries.queries = []) :
    step σ env Node.gather_and_process store st = Except.ok (Node.terminal, store, st) := by
  simp [step, gather_and_process_node, h]

/-- C5 witness: the gather node on a state with no planned queries. -/
theorem claim_c5_witness :
    step Unit env1 Node.gather_and_process () st_main = Except.ok (Node.terminal, (), st_main) :=
  claim_c5_empty_gap_terminates Unit env1 () st_main rfl

/-- C8. After ingesting gap-driven material (the fold of
`create_documents_from_search` over the planned queries, whose returned
id lists are discarded), the gather node obtains the updated document set
by re-querying the store with the original `query` field of the state (k = 20): the
resulting documents are exactly a fresh hybrid search of the
post-ingestion store, not anything returned by the ingestion calls. -/
theorem claim_c8_requery_after_ingest (σ : Type) (env : Env σ) (store : σ) (st : State)
    (h : st.search_queries.queries ≠ []) :
    step σ env Node.gather_and_process store st =
      Except.ok (Node.terminal, ingest_fold σ env store st.search_queries.queries,
        { st with documents :=
            env.hybrid_search (ingest_fold σ env store st.search_queries.queries) st.query 20 }) := by
  simp [step, gather_and_process_node, h]

/-- C8 witness: gathering with one planned query against the counting
store re-queries the post-ingestion store. -/
theorem claim_c8_witness :
    step Nat env3 Node.gather_and_process 0 st_gather =
      Except.ok (Node.terminal, ingest_fold Nat env3 0 st_gather.search_queries.queries,
        { st_gather with documents :=
            env3.hybrid_search (ingest_fold Nat env3 0 st_gather.search_queries.queries) st_gather.query 20 }) :=
  claim_c8_requery_after_ingest Nat env3 0 st_gather (by decide)

/-- C4. The two outcomes of `perform_hybrid_search` are distinguishable:
a backing ranking call that reports no matches yields the empty list (not
an error), a backing call that itself fails (a raised `.execute()`)
propagates as an error (not a silent empty list), and no error value
coincides with the empty-list success. -/
theorem claim_c4_hybrid_outcomes (V : Type) (env : HybridEnv V) (q : String) (k : Nat) :
    (env.rpc (rpc_params_of V env q k) = Except.ok [] →
      perform_hybrid_search V env q k = Except.ok []) ∧
    (∀ e, env.rpc (rpc_params_of V env q k) = Except.error e →
      perform_hybrid_search V env q k = Except.error e) ∧
    (∀ e, (Except.ok [] : Except String (List Document)) ≠ Except.error e) := by
  refine ⟨fun h => ?_, fun e h => ?_, fun e h => Except.noConfusion h⟩
  · simp [perform_hybrid_search, h]
  · simp [perform_hybrid_search, h]

/-- C4 witness: a no-match backend yields the empty list, a failing
backend propagates its error, and the two values differ. -/
theorem claim_c4_witness :
    perform_hybrid_search Unit hybrid_env_ok q_str 15 = Except.ok [] ∧
    perform_hybrid_search Unit hybrid_env_err q_str 15 = Except.error boom_str ∧
    (Except.ok [] : Except String (List Document)) ≠ Except.error boom_str :=
  ⟨(claim_c4_hybrid_outcomes Unit hybrid_env_ok q_str 15).1 rfl,
   (claim_c4_hybrid_outcomes Unit hybrid_env_err q_str 15).2.1 boom_str rfl,
   (claim_c4_hybrid_outcomes Unit hybrid_env_ok q_str 15).2.2 boom_str⟩

/-- C6. When the external search provider returns zero results,
`create_documents_from_search` returns the empty id list (count 0) with
no exception raised. -/
theorem claim_c6_zero_results (V : Type) (env : IngestEnv V) (topic : String)
    (h : env.search_tool topic = []) :
    create_documents_from_search V env topic = Except.ok [] := by
  simp [create_documents_from_search, h]

/-- C6 witness: the provider returning zero results yields the empty
ingestion result. -/
theorem claim_c6_witness :
    create_documents_from_search Unit ingest_env_empty topic_c7 = Except.ok [] :=
  claim_c6_zero_results Unit ingest_env_empty topic_c7 rfl

theorem length_filterMap_countP (α β : Type) (f : α → Option β) (l : List α) :
    (l.filterMap f).length = l.countP (fun a => (f a).isSome) := by
  induction l with
  | nil => rfl
  | cons a t ih =>
    cases hfa : f a with
    | none => simp [List.filterMap_cons, hfa, List.countP_cons, ih]
    | some b => simp [List.filterMap_cons, hfa, List.countP_cons, ih]

theorem rows_len_eq_count (V : Type) (env : IngestEnv V) (results : List SearchResult) :
    (rows_to_insert V env results).length =
      refine_success_count V env (eligible_chunks V env results) := by
  unfold rows_to_insert refine_success_count
  exact length_filterMap_countP String (InsertRow V) (process_chunk V env) (eligible_chunks V env results)

/-- C7. Ingestion is partial-failure-tolerant: chunks whose refinement
(metadata generation or embedding) step fails are skipped, the remaining
chunks are processed, and — whenever the upsert acknowledges one response
row per inserted row — the returned id count equals exactly the number of
chunks whose refinement succeeded, with no exception raised. -/
theorem claim_c7_partial_failure (V : Type) (env : IngestEnv V) (topic : String)
    (items : List InsertedItem)
    (hup : env.upsert (rows_to_insert V env (env.search_tool topic)) = Except.ok items)
    (hlen : items.length = (rows_to_insert V env (env.search_tool topic)).length) :
    ∃ ids, create_documents_from_search V env topic = Except.ok ids ∧
      ids.length = refine_success_count V env (eligible_chunks V env (env.search_tool topic)) := by
  by_cases hs : env.search_tool topic = []
  · refine ⟨[], by simp [create_documents_from_search, hs], ?_⟩
    simp [refine_success_count, eligible_chunks, hs]
  · cases hrows : rows_to_insert V env (env.search_tool topic) with
    | nil =>
      refine ⟨[], ?_, ?_⟩
      · simp [create_documents_from_search, hs, hrows]
      · rw [← rows_len_eq_count, hrows]
        rfl
    | cons r rs =>
      rw [hrows] at hup hlen
      have hne : items ≠ [] := by
        intro h0
        rw [h0] at hlen
        exact absurd hlen.symm (by simp)
      refine ⟨items.map (fun item => item.id), ?_, ?_⟩
      · simp [create_documents_from_search, hs, hrows, hup, hne]
      · rw [List.length_map, hlen, ← hrows, rows_len_eq_count]

/-- C7 witness: one search result splitting into five chunks, the
refinement raising for exactly one of them, yields four ingested ids and
no exception. -/
theorem claim_c7_witness :
    create_documents_from_search Unit ingest_env_w topic_c7 = Except.ok result_ids ∧
    result_ids.length =
      refine_success_count Unit ingest_env_w
        (eligible_chunks Unit ingest_env_w (ingest_env_w.search_tool topic_c7)) := by
  obtain ⟨ids, hids, hcount⟩ :=
    claim_c7_partial_failure Unit ingest_env_w topic_c7 items_w rfl rfl
  have h2 : (Except.ok ids : Except String (List Nat)) = Except.ok result_ids := by
    rw [← hids]
    rfl
  have he : ids = result_ids := by injection h2
  rw [he] at hids hcount
  exact ⟨hids, hcount⟩

/-- C9 counterexample: `perform_hybrid_search` cannot realise the spec-modelled
hybrid search with primary query "pydantic" and an empty auxiliary
keyword query. Against a ranking backend that distinguishes the lexical
text from the embedding, neither invoking the function with "pydantic"
(its lexical text is then "pydantic", not empty) nor invoking it with the
empty string (its semantic embedding is then of the empty string, not of
"pydantic") produces the result of the spec call: the single parameter is
forced to serve as both queries, so no separate auxiliary keyword query
is accepted. -/
theorem claim_c9_counterexample :
    perform_hybrid_search String hybrid_env9 pydantic_str 15 ≠
      hybridSearch_spec String hybrid_env9 pydantic_str emptyStr 15 ∧
    perform_hybrid_search String hybrid_env9 emptyStr 15 ≠
      hybridSearch_spec String hybrid_env9 pydantic_str emptyStr 15 ∧
    (rpc_params_of String hybrid_env9 pydantic_str 15).query_text = pydantic_str := by
  refine ⟨fun h => ?_, fun h => ?_, rfl⟩
  · have h2 : (Except.ok [row_to_document row_lex] : Except String (List Document)) =
        Except.ok [row_to_document row_sem] := h
    have h3 : ([row_to_document row_lex] : List Document) = [row_to_document row_sem] := by
      injection h2
    exact absurd h3 (by decide)
  · have h2 : (Except.ok [] : Except String (List Document)) =
        Except.ok [row_to_document row_sem] := h
    have h3 : ([] : List Document) = [row_to_document row_sem] := by injection h2
    exact List.noConfusion h3

/-- C9 amended: `perform_hybrid_search` exposes no auxiliary keyword
parameter — its single query string is sent verbatim as the lexical
`query_text` and embedded as the semantic query of the same ranking call,
so the lexical side is empty exactly when the whole query is; with the
empty query the function itself still executes normally, forwarding
whatever rows the ranking call succeeds with as documents and raising no
lexical-matching error of its own. -/
theorem claim_c9_amended (V : Type) (env : HybridEnv V) (k : Nat) :
    (∀ q, (rpc_params_of V env q k).query_text = q ∧
      (rpc_params_of V env q k).query_embedding = env.embed_query q) ∧
    (∀ rows, env.rpc (rpc_params_of V env emptyStr k) = Except.ok rows →
      perform_hybrid_search V env emptyStr k = Except.ok (rows.map row_to_document)) := by
  refine ⟨fun q => ⟨rfl, rfl⟩, fun rows h => ?_⟩
  cases rows with
  | nil => simp [perform_hybrid_search, h]
  | cons r rs => simp [perform_hybrid_search, h]

/-- C9 amended witness: the empty query is passed as both sides of the
ranking call and still succeeds (with the rows that call returns). -/
theorem claim_c9_amended_witness :
    ((rpc_params_of String hybrid_env9 emptyStr 15).query_text = emptyStr ∧
      (rpc_params_of String hybrid_env9 emptyStr 15).query_embedding =
        hybrid_env9.embed_query emptyStr) ∧
    perform_hybrid_search String hybrid_env9 emptyStr 15 =
      Except.ok (List.map row_to_document []) :=
  ⟨(claim_c9_amended String hybrid_env9 15).1 emptyStr,
   (claim_c9_amended String hybrid_env9 15).2 [] rfl⟩

/-- C10. The `parse_metadata` validator is total and the decode error
never escapes: a string input is parsed with `json.loads` and, when the
parse fails, wrapped as the object with the raw string under the
"content" key instead of propagating; a non-string input passes through
unchanged. -/
theorem claim_c10_parse_metadata_total (α : Type) (loads : String → Option JsonVal)
    (s : String) (v : α) :
    (∀ j, loads s = some j →
      parse_metadata α loads (MetaField.ofStr s) = Sum.inl j) ∧
    (loads s = none →
      parse_metadata α loads (MetaField.ofStr s) =
        Sum.inl (JsonVal.obj [(content_key, JsonVal.str s)])) ∧
    parse_metadata α loads (MetaField.ofNonStr v) = Sum.inr v := by
  refine ⟨fun j hj => ?_, fun hn => ?_, rfl⟩
  · simp [parse_metadata, hj]
  · simp [parse_metadata, hn]

/-- C10 witness: a string that fails to decode is wrapped, not raised. -/
theorem claim_c10_witness :
    parse_metadata Nat loads_none (MetaField.ofStr oops_str) =
      Sum.inl (JsonVal.obj [(content_key, JsonVal.str oops_str)]) :=
  (claim_c10_parse_metadata_total Nat loads_none oops_str 0).2.1 rfl
